import Mathlib

/-!
Verification of the anomaly-scoring / impossible-travel core of the
sky-trace repository, as a shallow embedding in Lean 4.

Modules embedded:
  * `src/utils/ml_detector.py`    — risk fusion, classification, summaries
  * `src/utils/geolocation.py`    — IP lookup, haversine, impossible travel
  * `src/utils/data_processor.py` — validation / cleaning / feature extraction

Conventions of the embedding:
  * Python floats are modelled as exact rationals (`ℚ`) where the source
    performs only field arithmetic and comparisons, and as reals (`ℝ`)
    where the source uses transcendental functions (trig, sqrt).
  * A numpy NaN produced by `0/0` is modelled as `Option.none`.
  * A pandas DataFrame is a `List` of typed row structures; an operation
    that may mutate the caller's frame in place is modelled as a function
    returning `(result, callerFrameAfterCall)`.
  * External effects (the HTTP geolocation service, the datetime format
    parser behind `pd.to_datetime`) are parameters of the embedded
    functions.
  * Python string primitives (`split`, `strip`, `upper`, `lower`, `in`,
    `int(...)`) are re-implemented structurally over `List Char` so that
    every embedded function evaluates inside the kernel.
-/

namespace SkyTrace

/-! ## Python string primitives over `List Char` -/

/-- Python `s.split(sep)` for a one-character separator: splits on every
occurrence, keeping empty fragments; `''.split('.') = ['']`. -/
def splitChar (sep : Char) : List Char → List (List Char)
  | [] => [[]]
  | c :: cs =>
      if c = sep then [] :: splitChar sep cs
      else
        match splitChar sep cs with
        | [] => [[c]]
        | g :: gs => (c :: g) :: gs

/-- Characters Python's `int()` (and `str.strip()`) treats as whitespace,
restricted to ASCII: tab, LF, VT, FF, CR, FS, GS, RS, US and space.
Non-ASCII whitespace (U+0085, U+00A0, ...) is outside this model, so
theorems that rely on `int()` fidelity restrict their inputs to ASCII. -/
def pyIsSpace (c : Char) : Bool :=
  c = ' ' || c = '\t' || c = '\n' || c = '\r'
    || c.toNat = 11 || c.toNat = 12
    || c.toNat = 28 || c.toNat = 29 || c.toNat = 30 || c.toNat = 31

/-- Leading and trailing whitespace removal, as `int()` applies around a
numeric literal. -/
def trimChars (cs : List Char) : List Char :=
  ((cs.dropWhile pyIsSpace).reverse.dropWhile pyIsSpace).reverse

/-- Decimal digits to the number they denote, most significant first. -/
def digitsToNat (cs : List Char) : Nat :=
  cs.foldl (fun a c => 10 * a + (c.toNat - 48)) 0

/-- True when no two adjacent characters are both underscores. -/
def noDoubleUnderscore : List Char → Bool
  | [] => true
  | [_] => true
  | a :: b :: rest => !(a = '_' && b = '_') && noDoubleUnderscore (b :: rest)

/-- The digit part of a Python integer literal: one or more ASCII digit
groups separated by single underscores (PEP 515) — every character is a
digit or an underscore, the first and last characters are digits, and
underscores are never adjacent.  The value ignores the underscores. -/
def parseDigits (cs : List Char) : Option Nat :=
  match cs with
  | [] => none
  | c0 :: _ =>
      if cs.all (fun c => c.isDigit || c = '_')
          && c0.isDigit && (cs.getLastD '0').isDigit
          && noDoubleUnderscore cs
      then some (digitsToNat (cs.filter (fun c => c ≠ '_')))
      else none

/-- Model of Python `int(s)`: optional surrounding whitespace, an optional
sign, then ASCII digit groups with single underscores between digits
(PEP 515, `int('1_72') = 172`); anything else raises `ValueError`,
modelled as `none`.  This is exact for ASCII strings; Python's non-ASCII
decimal digits and non-ASCII whitespace are outside the model, so the
theorems that quantify over malformed inputs restrict them to ASCII. -/
def pyInt (s : String) : Option Int :=
  match trimChars s.data with
  | '+' :: rest => (parseDigits rest).map Int.ofNat
  | '-' :: rest => (parseDigits rest).map (fun n => -(n : Int))
  | cs => (parseDigits cs).map Int.ofNat

/-- Containment of `pat` as a contiguous run of `cs` (Python `pat in s`). -/
def charsContain (pat : List Char) : List Char → Bool
  | [] => pat.isPrefixOf []
  | c :: cs => pat.isPrefixOf (c :: cs) || charsContain pat cs

/-- Python `pat in s` on strings. -/
def pyIn (pat s : String) : Bool := charsContain pat.data s.data

/-- Python `s.upper()` (ASCII, which covers every string the source
compares case-insensitively). -/
def pyUpper (s : String) : String := String.mk (s.data.map Char.toUpper)

/-- Python `s.lower()` (ASCII). -/
def pyLower (s : String) : String := String.mk (s.data.map Char.toLower)

/-- Python `ip.split('.')` as used by `_is_private_ip`. -/
def pySplitDot (ip : String) : List String := (splitChar '.' ip.data).map String.mk

/-- Keep the first occurrence of every element, in order — the semantics
of `DataFrame.drop_duplicates()` and the distinct-value set behind
`Series.nunique()`. -/
def dropDup {α : Type} [DecidableEq α] (l : List α) : List α :=
  l.foldl (fun acc x => if x ∈ acc then acc else acc ++ [x]) []

/-! ## ml_detector.py — risk classification, fusion, summary -/

/-- Embeds `classify_risk` from `MLAnomalyDetector.calculate_risk_scores`
(src/utils/ml_detector.py lines 208-216): fixed thresholds evaluated in
descending order, with each boundary included in the higher bucket. -/
def classify_risk (score : ℚ) : String :=
  if score ≥ 0.8 then "Critical"
  else if score ≥ 0.6 then "High"
  else if score ≥ 0.4 then "Medium"
  else "Low"

/-- One row of the scored table produced by `calculate_risk_scores`: the
per-row score columns the method appends. -/
structure ScoredRow where
  isolation_score : ℚ
  is_dbscan_outlier : ℚ
  is_rules : List Bool
  statistical_score : ℚ
  risk_score : ℚ
  risk_level : String
  deriving Repr, DecidableEq

/-- Per-row core of `MLAnomalyDetector.calculate_risk_scores`
(src/utils/ml_detector.py lines 162-220).  Inputs: the row's isolation
score, its DBSCAN cluster label (−1 = outlier), and the row's values of
the statistical-rule indicator columns (one `Bool` per rule that was
evaluable on the dataset, in iteration order).  The source accumulates
`statistical_score += indicators.astype(float)` over the rules, divides
by the number of rules when positive (else sets 0), and fuses with the
fixed weights 0.4 / 0.3 / 0.3. -/
def calculate_risk_scores_row (iso : ℚ) (label : Int) (inds : List Bool) : ScoredRow :=
  let dbs : ℚ := if label = -1 then 1 else 0
  let statSum : ℚ := inds.foldl (fun acc b => acc + (if b then 1 else 0)) 0
  let stat : ℚ := if inds.length > 0 then statSum / inds.length else 0
  let risk : ℚ := 0.4 * iso + 0.3 * dbs + 0.3 * stat
  { isolation_score := iso
    is_dbscan_outlier := dbs
    is_rules := inds
    statistical_score := stat
    risk_score := risk
    risk_level := classify_risk risk }

/-- The score normalization at the end of
`MLAnomalyDetector.detect_isolation_forest` (src/utils/ml_detector.py
lines 96-102): `1 - (scores - scores.min()) / (scores.max() - scores.min())`
over the raw `score_samples` output.  When every raw score is identical
the denominator is zero and numpy evaluates `0/0` to NaN (the module
suppresses the warning with `warnings.filterwarnings('ignore')`); a NaN
entry is modelled as `none`. -/
def minmax_invert (anomaly_scores : List ℚ) : List (Option ℚ) :=
  match anomaly_scores with
  | [] => []
  | s0 :: rest =>
      let mn := rest.foldl min s0
      let mx := rest.foldl max s0
      (s0 :: rest).map fun s =>
        if mx - mn = 0 then none else some (1 - (s - mn) / (mx - mn))

/-- The columns of the scored table read by `get_anomaly_summary`. -/
structure ScoredRec where
  user_id : String
  risk_score : ℚ
  risk_level : String
  deriving Repr, DecidableEq

/-- The summary dictionary built by `MLAnomalyDetector.get_anomaly_summary`. -/
structure AnomalySummary where
  total_records : Nat
  anomalies_detected : Nat
  risk_level_counts : String → Nat
  avg_risk_score : ℚ
  high_risk_users : Nat

/-- Embeds `MLAnomalyDetector.get_anomaly_summary` (src/utils/ml_detector.py
lines 245-255).  `value_counts().to_dict()` is modelled as the counting
function itself; `mean()` of an empty frame is NaN in pandas, while this
model returns 0 (sum 0 divided by length 0) — the claims about the mean
are therefore stated for non-empty inputs only. -/
def get_anomaly_summary (results : List ScoredRec) : AnomalySummary :=
  { total_records := results.length
    anomalies_detected := (results.filter (fun r => 0.5 ≤ r.risk_score)).length
    risk_level_counts := fun l => (results.map (fun r => r.risk_level)).count l
    avg_risk_score := (results.map (fun r => r.risk_score)).sum / results.length
    high_risk_users :=
      (dropDup ((results.filter (fun r => 0.7 ≤ r.risk_score)).map
        (fun r => r.user_id))).length }

/-! ## geolocation.py — IP lookup, haversine distance, impossible travel -/

/-- Embeds `GeolocationAnalyzer._is_private_ip` (src/utils/geolocation.py lines
89-106).  The list comprehension `[int(x) for x in ip.split('.')]` first
converts every dot-separated component; any `ValueError` reaches the bare
`except` and yields `True`.  Python's short-circuit `and` reads
`parts[1]` only when the first octet is 172 or 192, and an `IndexError`
there also reaches the bare `except`. -/
def is_private_ip (ip : String) : Bool :=
  match (pySplitDot ip).mapM pyInt with
  | none => true                       -- int() raised ValueError
  | some parts =>
    match parts with
    | [] => true                       -- unreachable: split never yields []
    | p0 :: rest =>
      if p0 = 10 then true
      else if p0 = 172 then
        match rest with
        | [] => true                   -- parts[1] raised IndexError
        | p1 :: _ => if 16 ≤ p1 ∧ p1 ≤ 31 then true else false
      else if p0 = 192 then
        match rest with
        | [] => true                   -- parts[1] raised IndexError
        | p1 :: _ => if p1 = 168 then true else false
      else if p0 = 127 then true
      else false

/-- The location dictionary built by `GeolocationAnalyzer.get_ip_location`. -/
structure Location where
  ip : String
  country : String
  country_code : String
  region : String
  city : String
  latitude : ℚ
  longitude : ℚ
  isp : String
  timezone : String
  is_proxy : Bool
  is_vpn : Bool
  deriving Repr, DecidableEq

/-- The fixed `default_location` sentinel of `get_ip_location`
(src/utils/geolocation.py lines 31-43). -/
def default_location (ip : String) : Location :=
  { ip := ip
    country := "Unknown"
    country_code := "XX"
    region := "Unknown"
    city := "Unknown"
    latitude := 0.0
    longitude := 0.0
    isp := "Unknown"
    timezone := "UTC"
    is_proxy := false
    is_vpn := false }

/-- The JSON body the external ip-api.com service may return; every field
except `status` is optional (`data.get(...)` defaults fill the gaps). -/
structure ApiData where
  status : String
  country : Option String
  countryCode : Option String
  region : Option String
  city : Option String
  lat : Option ℚ
  lon : Option ℚ
  isp : Option String
  timezone : Option String
  proxy : Option Bool
  deriving Repr, DecidableEq

/-- Outcome of the single `requests.get` round trip: either some raised
exception (network failure, timeout, bad JSON, a non-float `lat`/`lon`),
or an HTTP response with a status code and parsed body. -/
inductive LookupOutcome where
  | exn
  | response (status_code : Nat) (data : ApiData)
  deriving Repr, DecidableEq

/-- An outcome the source treats as a failed lookup: an exception, a
non-200 status code, or a body whose `status` field is not `success`. -/
def is_failure_outcome (o : LookupOutcome) : Bool :=
  match o with
  | .exn => true
  | .response sc data => if sc = 200 then (if data.status = "success" then false else true) else true

/-- Embeds `GeolocationAnalyzer.get_ip_location` (src/utils/geolocation.py lines
16-87), with the process-lifetime cache threaded explicitly and the
network round trip supplied as a `LookupOutcome`.  Paths: cache hit;
private-IP short circuit (no network access — the result does not depend
on the outcome argument); successful 200/`success` response; every other
path caches and returns the sentinel.  The `st.warning` call on the
exception path is presentation-only and is not modelled. -/
def get_ip_location (cache : List (String × Location)) (ip_address : String)
    (outcome : LookupOutcome) : Location × List (String × Location) :=
  match cache.lookup ip_address with
  | some loc => (loc, cache)
  | none =>
    if is_private_ip ip_address then
      (default_location ip_address, (ip_address, default_location ip_address) :: cache)
    else
      match outcome with
      | .exn =>
        (default_location ip_address, (ip_address, default_location ip_address) :: cache)
      | .response sc data =>
        if sc = 200 then
          if data.status = "success" then
            let loc : Location :=
              { ip := ip_address
                country := data.country.getD "Unknown"
                country_code := data.countryCode.getD "XX"
                region := data.region.getD "Unknown"
                city := data.city.getD "Unknown"
                latitude := (data.lat.getD 0.0)
                longitude := (data.lon.getD 0.0)
                isp := data.isp.getD "Unknown"
                timezone := data.timezone.getD "UTC"
                is_proxy := data.proxy.getD false
                is_vpn := pyIn "VPN" (pyUpper (data.isp.getD ""))
                            || pyIn "PROXY" (pyUpper (data.isp.getD "")) }
            (loc, (ip_address, loc) :: cache)
          else
            (default_location ip_address, (ip_address, default_location ip_address) :: cache)
        else
          (default_location ip_address, (ip_address, default_location ip_address) :: cache)

/-- Embeds `self.earth_radius_km` (src/utils/geolocation.py line 14). -/
def earth_radius_km : ℝ := 6371

/-- Embeds `np.radians`: degrees to radians. -/
noncomputable def radians (deg : ℝ) : ℝ := deg * (Real.pi / 180)

/-- Embeds `GeolocationAnalyzer.calculate_distance` (src/utils/geolocation.py
lines 155-175): the haversine great-circle distance with Earth radius
6371 km, over exact reals. -/
noncomputable def calculate_distance (lat1 lon1 lat2 lon2 : ℝ) : ℝ :=
  earth_radius_km * (2 * Real.arcsin (Real.sqrt (
    Real.sin ((radians lat2 - radians lat1) / 2) ^ 2 +
    Real.cos (radians lat1) * Real.cos (radians lat2) *
      Real.sin ((radians lon2 - radians lon1) / 2) ^ 2)))

/-- The columns of one login event read by `detect_impossible_travel`:
the timestamp (in hours, the unit of `total_seconds()/3600`) and the
enriched coordinates. -/
structure GeoEvent where
  timestamp : ℝ
  latitude : ℝ
  longitude : ℝ

/-- The travel columns `detect_impossible_travel` writes for one row. -/
structure PairResult where
  distance_km : ℝ
  time_diff_hours : ℝ
  travel_speed_kmh : ℝ
  impossible_travel : Bool

/-- The zero defaults every row starts from (src/utils/geolocation.py
lines 188-191). -/
def defaultPair : PairResult := ⟨0, 0, 0, false⟩

/-- Embeds `max_speed_kmh` (src/utils/geolocation.py line 197). -/
def max_speed_kmh : ℝ := 1000

open Classical in
/-- The loop body of `GeolocationAnalyzer.detect_impossible_travel`
(src/utils/geolocation.py lines 205-241) for one consecutive pair of a
user's logins: rows with identical coordinates, and rows whose elapsed
time is ≤ 0, are skipped and keep the zero defaults; otherwise the
required speed `distance / time` is recorded and the row is flagged when
that speed strictly exceeds `max_speed_kmh`. -/
noncomputable def process_pair (prev curr : GeoEvent) : PairResult :=
  if prev.latitude = curr.latitude ∧ prev.longitude = curr.longitude then
    defaultPair
  else
    let distance := calculate_distance prev.latitude prev.longitude curr.latitude curr.longitude
    let tdiff := curr.timestamp - prev.timestamp
    if tdiff ≤ 0 then defaultPair
    else
      let speed := distance / tdiff
      ⟨distance, tdiff, speed, if speed > max_speed_kmh then true else false⟩

/-- Embeds `detect_impossible_travel` restricted to one user's events, already
sorted ascending by timestamp (the source sorts by `[user_id, timestamp]`
and iterates per user): the first row keeps the zero defaults, and row
i+1 receives the result of processing the pair (row i, row i+1). -/
noncomputable def detect_impossible_travel_user (events : List GeoEvent) : List PairResult :=
  match events with
  | [] => []
  | _ :: rest => defaultPair :: List.zipWith process_pair events rest

/-! ## data_processor.py — validation, cleaning, feature extraction -/

/-- The value a parsed pandas datetime exposes to this program: a total
order (`ord`, in minutes) used for sorting and day spans, and the `hour`
and `dayofweek` accessors used for the temporal features. -/
structure PyDatetime where
  ord : Int
  hour : Nat
  dow : Nat
  deriving Repr, DecidableEq

/-- A timestamp cell: either a raw string as uploaded, or an
already-parsed datetime. -/
inductive TimeVal where
  | raw (s : String)
  | dt (t : PyDatetime)
  deriving Repr, DecidableEq

/-- Embeds `pd.to_datetime` on one cell, parameterized by the format parser
`parse`: already-parsed cells pass through, raw cells parse or raise
(`none`). -/
def to_datetime (parse : String → Option PyDatetime) : TimeVal → Option PyDatetime
  | .raw s => parse s
  | .dt t => some t

/-- One row of the uploaded table, with the four required columns.
`user_agent` may be null (`none`). -/
structure RawRow where
  timestamp : TimeVal
  user_id : String
  ip_address : String
  user_agent : Option String
  deriving Repr, DecidableEq

/-- One dot-separated component against the octet alternation of the
validation regex `(25[0-5]|2[0-4][0-9]|[01]?[0-9][0-9]?)`. -/
def matchesOctet (cs : List Char) : Bool :=
  match cs with
  | [a] => a.isDigit
  | [a, b] => a.isDigit && b.isDigit
  | [a, b, c] =>
      if a = '2' && b = '5' then '0' ≤ c && c ≤ '5'
      else if a = '2' then ('0' ≤ b && b ≤ '4') && c.isDigit
      else (a = '0' || a = '1') && b.isDigit && c.isDigit
  | _ => false

/-- The anchored dotted-quad IPv4 regex of `DataProcessor.validate_data`
(src/utils/data_processor.py line 45): exactly four components, each
matching the octet alternation. -/
def is_valid_ipv4 (s : String) : Bool :=
  match splitChar '.' s.data with
  | [a, b, c, d] => matchesOctet a && matchesOctet b && matchesOctet c && matchesOctet d
  | _ => false

/-- The structured content of the error strings `validate_data` can
append (after the required columns were found present). -/
inductive ValidationIssue where
  | empty_dataset
  | bad_timestamp
  | invalid_ips (count : Nat)
  | null_values (user_agent_nulls : Nat)
  deriving Repr, DecidableEq

/-- The invalid-IP check of `validate_data`: the count of rows whose
`ip_address` fails the dotted-quad regex. -/
def ipIssues (df : List RawRow) : List ValidationIssue :=
  let n := (df.filter (fun r => !is_valid_ipv4 r.ip_address)).length
  if n > 0 then [.invalid_ips n] else []

/-- The null check of `validate_data`: per-column null counts.  In this
typed embedding only `user_agent` is nullable, so the count covers that
column. -/
def nullIssues (df : List RawRow) : List ValidationIssue :=
  let n := (df.filter (fun r => r.user_agent.isNone)).length
  if n > 0 then [.null_values n] else []

/-- Embeds `DataProcessor.validate_data` (src/utils/data_processor.py lines
14-55), for an input that has the four required columns (when columns are
missing the source returns before touching the data).  The line
`df['timestamp'] = pd.to_datetime(df['timestamp'])` assigns into the
CALLER's dataframe: when every cell parses, the caller's timestamp column
is overwritten with the parsed datetimes; when `pd.to_datetime` raises,
the `except` branch records the error and the column is left unchanged.
The second component of the result is the caller's frame after the call. -/
def validate_data (parse : String → Option PyDatetime) (df : List RawRow) :
    (Bool × List ValidationIssue) × List RawRow :=
  let emptyIssues : List ValidationIssue :=
    if df.length = 0 then [.empty_dataset] else []
  match df.mapM (fun r => to_datetime parse r.timestamp) with
  | some ts =>
      let df2 := (df.zip ts).map (fun p => { p.1 with timestamp := TimeVal.dt p.2 })
      let errs := emptyIssues ++ ipIssues df2 ++ nullIssues df2
      ((errs.isEmpty, errs), df2)
  | none =>
      let errs := emptyIssues ++ [.bad_timestamp] ++ ipIssues df ++ nullIssues df
      ((errs.isEmpty, errs), df)

/-- A cleaned row: timestamp parsed, other columns as uploaded. -/
structure CleanRow where
  timestamp : PyDatetime
  user_id : String
  ip_address : String
  user_agent : Option String
  deriving Repr, DecidableEq

/-- Insertion into a list sorted ascending by timestamp. -/
def insertByTs (r : CleanRow) : List CleanRow → List CleanRow
  | [] => [r]
  | x :: xs =>
      if r.timestamp.ord ≤ x.timestamp.ord then r :: x :: xs
      else x :: insertByTs r xs

/-- Embeds `sort_values('timestamp')`: ascending sort by timestamp.  (The
source's quicksort leaves the order of equal keys unspecified; this
model uses a stable insertion sort.) -/
def sortByTs (l : List CleanRow) : List CleanRow := l.foldr insertByTs []

/-- Embeds `DataProcessor.clean_data` (src/utils/data_processor.py lines 57-81):
works on `df.copy()`, converts the timestamp column (a parse failure
raises out of the function, modelled as `none`), sorts ascending by
timestamp, and drops exact-duplicate rows keeping first occurrences;
`reset_index` has no content in this model.  The second component is the
caller's frame after the call — unchanged, because every write lands in
the copy. -/
def clean_data (parse : String → Option PyDatetime) (df : List RawRow) :
    Option (List CleanRow) × List RawRow :=
  let converted := df.mapM (fun r =>
    (to_datetime parse r.timestamp).map (fun t =>
      CleanRow.mk t r.user_id r.ip_address r.user_agent))
  match converted with
  | none => (none, df)
  | some rows => (some (dropDup (sortByTs rows)), df)

/-- Embeds `DataProcessor._extract_browser` (src/utils/data_processor.py lines
113-130): first-match-wins keyword search on the lowercased user agent;
a null user agent degrades to `Unknown`. -/
def extract_browser (ua : Option String) : String :=
  match ua with
  | none => "Unknown"
  | some s =>
      let l := pyLower s
      if pyIn "chrome" l then "Chrome"
      else if pyIn "firefox" l then "Firefox"
      else if pyIn "safari" l && !(pyIn "chrome" l) then "Safari"
      else if pyIn "edge" l then "Edge"
      else if pyIn "opera" l then "Opera"
      else "Other"

/-- Embeds `DataProcessor._extract_os` (src/utils/data_processor.py lines
132-149). -/
def extract_os (ua : Option String) : String :=
  match ua with
  | none => "Unknown"
  | some s =>
      let l := pyLower s
      if pyIn "windows" l then "Windows"
      else if pyIn "mac" l || pyIn "darwin" l then "macOS"
      else if pyIn "linux" l then "Linux"
      else if pyIn "android" l then "Android"
      else if pyIn "iphone" l || pyIn "ipad" l then "iOS"
      else "Other"

/-- Embeds `DataProcessor._extract_device_type` (src/utils/data_processor.py
lines 151-162). -/
def extract_device_type (ua : Option String) : String :=
  match ua with
  | none => "Unknown"
  | some s =>
      let l := pyLower s
      if pyIn "mobile" l || pyIn "android" l || pyIn "iphone" l then "Mobile"
      else if pyIn "tablet" l || pyIn "ipad" l then "Tablet"
      else "Desktop"

/-- The per-user aggregate block `_calculate_user_statistics` joins onto
each row (src/utils/data_processor.py lines 164-186). -/
structure UserStats where
  login_count : Nat
  first_login : PyDatetime
  last_login : PyDatetime
  unique_ips : Nat
  unique_browsers : Nat
  unique_os : Nat
  hour_std : Option ℝ
  weekend_rate : ℚ
  business_rate : ℚ
  days_active : Int
  login_frequency : ℚ

/-- Embeds `is_weekend` for one row: `day_of_week.isin([5, 6]).astype(int)`. -/
def isWeekendInt (t : PyDatetime) : Nat := if t.dow = 5 ∨ t.dow = 6 then 1 else 0

/-- Embeds `is_business_hours` for one row: `(9 <= hour <= 17).astype(int)`. -/
def isBusinessInt (t : PyDatetime) : Nat := if 9 ≤ t.hour ∧ t.hour ≤ 17 then 1 else 0

/-- Embeds `DataProcessor._calculate_user_statistics` for one user: aggregates
over that user's rows.  `hour.std()` is the pandas sample standard
deviation (ddof = 1), NaN (`none`) for a single-login user;
`days_active` is the inclusive day span `(last - first).dt.days + 1`
with `ord` in minutes; `login_frequency = login_count / days_active`
(the source's `fillna(login_count)` never fires because `days_active`
is never NaN when the logins exist). -/
noncomputable def user_statistics (df : List CleanRow) (u : String) : UserStats :=
  let rows := df.filter (fun r => r.user_id = u)
  let n := rows.length
  let ords := rows.map (fun r => r.timestamp.ord)
  let firstOrd := ords.foldl min ((rows.headD ⟨⟨0, 0, 0⟩, "", "", none⟩).timestamp.ord)
  let lastOrd := ords.foldl max ((rows.headD ⟨⟨0, 0, 0⟩, "", "", none⟩).timestamp.ord)
  let firstL := (rows.map (fun r => r.timestamp)).foldl
    (fun acc t => if t.ord < acc.ord then t else acc)
    ((rows.headD ⟨⟨0, 0, 0⟩, "", "", none⟩).timestamp)
  let lastL := (rows.map (fun r => r.timestamp)).foldl
    (fun acc t => if acc.ord < t.ord then t else acc)
    ((rows.headD ⟨⟨0, 0, 0⟩, "", "", none⟩).timestamp)
  let hours := rows.map (fun r => r.timestamp.hour)
  let hourMean : ℝ := (hours.sum : ℝ) / n
  let hourStd : Option ℝ :=
    if n ≤ 1 then none
    else some (Real.sqrt ((hours.map (fun h => ((h : ℝ) - hourMean) ^ 2)).sum / (n - 1)))
  let daysActive : Int := (lastOrd - firstOrd) / 1440 + 1
  { login_count := n
    first_login := firstL
    last_login := lastL
    unique_ips := (dropDup (rows.map (fun r => r.ip_address))).length
    unique_browsers := (dropDup (rows.map (fun r => extract_browser r.user_agent))).length
    unique_os := (dropDup (rows.map (fun r => extract_os r.user_agent))).length
    hour_std := hourStd
    weekend_rate := ((rows.map (fun r => isWeekendInt r.timestamp)).sum : ℚ) / n
    business_rate := ((rows.map (fun r => isBusinessInt r.timestamp)).sum : ℚ) / n
    days_active := daysActive
    login_frequency := (n : ℚ) / (daysActive : ℚ) }

/-- One row of the feature table `extract_features` returns: the cleaned
columns plus the temporal flags, the parsed user-agent attributes, and
the per-user aggregates (source columns `weekend_ratio` and
`business_hours_ratio` are named `weekend_rate` / `business_rate` here). -/
structure FeatureRow where
  timestamp : PyDatetime
  user_id : String
  ip_address : String
  user_agent : Option String
  hour : Nat
  day_of_week : Nat
  is_weekend : Nat
  is_business_hours : Nat
  browser : String
  os : String
  device_type : String
  stats : UserStats

/-- Embeds `DataProcessor.extract_features` (src/utils/data_processor.py lines
83-111): works on `df.copy()`, derives the temporal and user-agent
columns per row, and left-merges the per-user aggregates on `user_id`.
The second component is the caller's frame after the call — unchanged,
because every write lands in the copy. -/
noncomputable def extract_features (df : List CleanRow) :
    List FeatureRow × List CleanRow :=
  (df.map (fun r =>
    { timestamp := r.timestamp
      user_id := r.user_id
      ip_address := r.ip_address
      user_agent := r.user_agent
      hour := r.timestamp.hour
      day_of_week := r.timestamp.dow
      is_weekend := isWeekendInt r.timestamp
      is_business_hours := isBusinessInt r.timestamp
      browser := extract_browser r.user_agent
      os := extract_os r.user_agent
      device_type := extract_device_type r.user_agent
      stats := user_statistics df r.user_id }), df)

/-- A concrete datetime format table used to instantiate the external
`pd.to_datetime` parser parameter on sample inputs. -/
def sampleParse (s : String) : Option PyDatetime :=
  if s = "2024-01-01 10:00:00" then some ⟨1440, 10, 0⟩ else none

/-! ## Theorems -/

/-- The indicator-sum fold of `calculate_risk_scores` counts the true
indicators. -/
lemma statSum_eq_countP (inds : List Bool) (c : ℚ) :
    inds.foldl (fun acc b => acc + (if b then 1 else 0)) c
      = c + (inds.countP id : ℚ) := by
  induction inds generalizing c with
  | nil => simp
  | cons b bs ih =>
      rw [List.foldl_cons, ih, List.countP_cons]
      by_cases hb : b = true
      · simp [hb]; ring
      · simp [hb]

lemma statistical_score_nonneg (iso : ℚ) (label : Int) (inds : List Bool) :
    0 ≤ (calculate_risk_scores_row iso label inds).statistical_score := by
  unfold calculate_risk_scores_row
  simp only
  split
  · rename_i h
    rw [statSum_eq_countP]
    have : (0:ℚ) < inds.length := by exact_mod_cast h
    positivity
  · exact le_refl 0

lemma statistical_score_le_one (iso : ℚ) (label : Int) (inds : List Bool) :
    (calculate_risk_scores_row iso label inds).statistical_score ≤ 1 := by
  unfold calculate_risk_scores_row
  simp only
  split
  · rename_i h
    rw [statSum_eq_countP]
    have hlen : (0:ℚ) < inds.length := by exact_mod_cast h
    rw [div_le_one hlen, zero_add]
    exact_mod_cast List.countP_le_length (p := id) (l := inds)
  · norm_num

/-- The fused score column, by definition of the row pipeline. -/
lemma risk_score_eq (iso : ℚ) (label : Int) (inds : List Bool) :
    (calculate_risk_scores_row iso label inds).risk_score
      = 0.4 * (calculate_risk_scores_row iso label inds).isolation_score
        + 0.3 * (calculate_risk_scores_row iso label inds).is_dbscan_outlier
        + 0.3 * (calculate_risk_scores_row iso label inds).statistical_score := rfl

/-- The DBSCAN outlier column is the 0/1 indicator of label −1. -/
lemma is_dbscan_outlier_mem (iso : ℚ) (label : Int) (inds : List Bool) :
    (calculate_risk_scores_row iso label inds).is_dbscan_outlier = 0
      ∨ (calculate_risk_scores_row iso label inds).is_dbscan_outlier = 1 := by
  unfold calculate_risk_scores_row
  by_cases h : label = -1 <;> simp [h]

/-- The risk_level column is obtained by applying `classify_risk` to the
risk_score column. -/
lemma risk_level_eq (iso : ℚ) (label : Int) (inds : List Bool) :
    (calculate_risk_scores_row iso label inds).risk_level
      = classify_risk (calculate_risk_scores_row iso label inds).risk_score := rfl

lemma classify_risk_critical (s : ℚ) (h : 0.8 ≤ s) : classify_risk s = "Critical" := by
  unfold classify_risk
  rw [if_pos h]

lemma classify_risk_high (s : ℚ) (h1 : 0.6 ≤ s) (h2 : s < 0.8) :
    classify_risk s = "High" := by
  unfold classify_risk
  rw [if_neg (by exact not_le.mpr h2), if_pos h1]

lemma classify_risk_medium (s : ℚ) (h1 : 0.4 ≤ s) (h2 : s < 0.6) :
    classify_risk s = "Medium" := by
  unfold classify_risk
  rw [if_neg (by exact not_le.mpr (lt_of_lt_of_le h2 (by norm_num))),
      if_neg (by exact not_le.mpr h2), if_pos h1]

lemma classify_risk_low (s : ℚ) (h : s < 0.4) : classify_risk s = "Low" := by
  unfold classify_risk
  rw [if_neg (by exact not_le.mpr (lt_of_lt_of_le h (by norm_num))),
      if_neg (by exact not_le.mpr (lt_of_lt_of_le h (by norm_num))),
      if_neg (by exact not_le.mpr h)]

/-- C1. For every scored record, `risk_level` is determined from
`risk_score` by the fixed thresholds, evaluated in descending order with
ties going to the higher bucket ('Critical' iff score ≥ 0.8, 'High' on
[0.6, 0.8), 'Medium' on [0.4, 0.6), 'Low' below 0.4), and it is a pure
function of `risk_score`: the level column is exactly `classify_risk`
applied to the score column. -/
theorem C1_risk_level_thresholds :
    (∀ (iso : ℚ) (label : Int) (inds : List Bool),
      (calculate_risk_scores_row iso label inds).risk_level
        = classify_risk (calculate_risk_scores_row iso label inds).risk_score)
    ∧ (∀ s : ℚ,
        (0.8 ≤ s → classify_risk s = "Critical")
        ∧ (0.6 ≤ s → s < 0.8 → classify_risk s = "High")
        ∧ (0.4 ≤ s → s < 0.6 → classify_risk s = "Medium")
        ∧ (s < 0.4 → classify_risk s = "Low")) := by
  refine ⟨fun iso label inds => risk_level_eq iso label inds, fun s => ⟨?_, ?_, ?_, ?_⟩⟩
  · exact classify_risk_critical s
  · exact classify_risk_high s
  · exact classify_risk_medium s
  · exact classify_risk_low s

/-- Witness for C1: the spec's boundary table evaluated at concrete
scores (0.8 → Critical, 0.7999 → High, 0.6 → High, 0.4 → Medium,
0.39999 → Low), plus the level/score coupling on a concrete row. -/
theorem C1_risk_level_thresholds_witness :
    (calculate_risk_scores_row 1 (-1) [true]).risk_level
      = classify_risk (calculate_risk_scores_row 1 (-1) [true]).risk_score
    ∧ classify_risk 0.8 = "Critical"
    ∧ classify_risk 0.7999 = "High"
    ∧ classify_risk 0.6 = "High"
    ∧ classify_risk 0.4 = "Medium"
    ∧ classify_risk 0.39999 = "Low" := by
  refine ⟨C1_risk_level_thresholds.1 1 (-1) [true], ?_, ?_, ?_, ?_, ?_⟩
  · exact (C1_risk_level_thresholds.2 0.8).1 (by norm_num)
  · exact (C1_risk_level_thresholds.2 0.7999).2.1 (by norm_num) (by norm_num)
  · exact (C1_risk_level_thresholds.2 0.6).2.1 (by norm_num) (by norm_num)
  · exact (C1_risk_level_thresholds.2 0.4).2.2.1 (by norm_num) (by norm_num)
  · exact (C1_risk_level_thresholds.2 0.39999).2.2.2 (by norm_num)

/-- C2. For every record, `risk_score` equals
0.4·isolation_score + 0.3·is_dbscan_outlier + 0.3·statistical_score,
and when the isolation score is in [0,1] (the DBSCAN column is in {0,1}
and the statistical column in [0,1] by construction) the fused
risk_score lies in [0,1]. -/
theorem C2_risk_score_fusion_bounds (iso : ℚ) (label : Int) (inds : List Bool)
    (h0 : 0 ≤ iso) (h1 : iso ≤ 1) :
    (calculate_risk_scores_row iso label inds).risk_score
      = 0.4 * (calculate_risk_scores_row iso label inds).isolation_score
        + 0.3 * (calculate_risk_scores_row iso label inds).is_dbscan_outlier
        + 0.3 * (calculate_risk_scores_row iso label inds).statistical_score
    ∧ 0 ≤ (calculate_risk_scores_row iso label inds).risk_score
    ∧ (calculate_risk_scores_row iso label inds).risk_score ≤ 1 := by
  have hiso : (calculate_risk_scores_row iso label inds).isolation_score = iso := rfl
  have hdb := is_dbscan_outlier_mem iso label inds
  have hs0 := statistical_score_nonneg iso label inds
  have hs1 := statistical_score_le_one iso label inds
  refine ⟨risk_score_eq iso label inds, ?_, ?_⟩
  · rw [risk_score_eq iso label inds, hiso]
    rcases hdb with h | h <;> rw [h] <;> nlinarith
  · rw [risk_score_eq iso label inds, hiso]
    rcases hdb with h | h <;> rw [h] <;> nlinarith

/-- Witness for C2 at a concrete record: isolation score 0.5, DBSCAN
label −1, one true and one false rule indicator. -/
theorem C2_risk_score_fusion_bounds_witness :
    (0:ℚ) ≤ 0.5 ∧ (0.5:ℚ) ≤ 1
    ∧ ((calculate_risk_scores_row 0.5 (-1) [true, false]).risk_score
        = 0.4 * (calculate_risk_scores_row 0.5 (-1) [true, false]).isolation_score
          + 0.3 * (calculate_risk_scores_row 0.5 (-1) [true, false]).is_dbscan_outlier
          + 0.3 * (calculate_risk_scores_row 0.5 (-1) [true, false]).statistical_score
        ∧ 0 ≤ (calculate_risk_scores_row 0.5 (-1) [true, false]).risk_score
        ∧ (calculate_risk_scores_row 0.5 (-1) [true, false]).risk_score ≤ 1) :=
  ⟨by norm_num, by norm_num,
    C2_risk_score_fusion_bounds 0.5 (-1) [true, false] (by norm_num) (by norm_num)⟩

/-- Summing the mapped 0/1 indicator values counts the true indicators. -/
lemma sum_map_indicator (inds : List Bool) :
    (inds.map (fun b => if b then (1:ℚ) else 0)).sum = (inds.countP id : ℚ) := by
  induction inds with
  | nil => simp
  | cons b bs ih =>
      rw [List.map_cons, List.sum_cons, ih, List.countP_cons]
      by_cases hb : b = true
      · simp [hb]; ring
      · simp [hb]

/-- C5. For every record, `statistical_score` equals the arithmetic
mean of the `is_<rule>` boolean columns for whatever subset of rules was
evaluable on the dataset; when zero rules are evaluable it is 0, not
undefined. -/
theorem C5_statistical_score_mean (iso : ℚ) (label : Int) (inds : List Bool) :
    (inds ≠ [] →
      (calculate_risk_scores_row iso label inds).statistical_score
        = ((calculate_risk_scores_row iso label inds).is_rules.map
            (fun b => if b then (1:ℚ) else 0)).sum
          / ((calculate_risk_scores_row iso label inds).is_rules.length : ℚ))
    ∧ (inds = [] → (calculate_risk_scores_row iso label inds).statistical_score = 0) := by
  constructor
  · intro hne
    have hrules : (calculate_risk_scores_row iso label inds).is_rules = inds := rfl
    rw [hrules]
    unfold calculate_risk_scores_row
    simp only
    rw [if_pos (List.length_pos.mpr hne), statSum_eq_countP, zero_add,
        sum_map_indicator]
  · intro he
    subst he
    rfl

/-- Witness for C5: a record with rule columns [true, false] has
statistical score (1+0)/2, and a record with no evaluable rules has
statistical score 0. -/
theorem C5_statistical_score_mean_witness :
    ([true, false] ≠ ([] : List Bool))
    ∧ (calculate_risk_scores_row 0 0 [true, false]).statistical_score
        = ((calculate_risk_scores_row 0 0 [true, false]).is_rules.map
            (fun b => if b then (1:ℚ) else 0)).sum
          / ((calculate_risk_scores_row 0 0 [true, false]).is_rules.length : ℚ)
    ∧ (calculate_risk_scores_row 0 0 ([] : List Bool)).statistical_score = 0 :=
  ⟨by simp,
   (C5_statistical_score_mean 0 0 [true, false]).1 (by simp),
   (C5_statistical_score_mean 0 0 []).2 rfl⟩

/-- C3. The claim says the degenerate min-max normalization (all raw
anomaly scores identical) "does not divide by zero and every normalized
isolation score is defined to be 0".  The code has no such guard: with
the concrete degenerate score array [−0.5, −0.5] the expression
`1 - (s - min)/(max - min)` evaluates `0/0`, which numpy turns into NaN
(modelled as `none`) for every record — not 0. -/
theorem C3_degenerate_normalization_is_nan :
    minmax_invert [-(0.5 : ℚ), -0.5] = [none, none]
    ∧ minmax_invert [-(0.5 : ℚ), -0.5] ≠ [some 0, some 0] := by
  constructor
  · norm_num [minmax_invert]
  · norm_num [minmax_invert]
    intro h
    exact Option.noConfusion h

/-- C7. The haversine great-circle distance (Earth radius 6371 km)
is symmetric — for every pair of coordinate points A and B,
distance(A,B) = distance(B,A) — and for every point A,
distance(A,A) = 0. -/
theorem C7_haversine_symmetric_zero :
    (∀ lat1 lon1 lat2 lon2 : ℝ,
      calculate_distance lat1 lon1 lat2 lon2 = calculate_distance lat2 lon2 lat1 lon1)
    ∧ (∀ lat lon : ℝ, calculate_distance lat lon lat lon = 0) := by
  constructor
  · intro lat1 lon1 lat2 lon2
    unfold calculate_distance
    rw [show (radians lat1 - radians lat2) / 2
          = -((radians lat2 - radians lat1) / 2) by ring,
        show (radians lon1 - radians lon2) / 2
          = -((radians lon2 - radians lon1) / 2) by ring,
        Real.sin_neg, Real.sin_neg]
    ring_nf
  · intro lat lon
    unfold calculate_distance
    simp

/-- Row i+1 of the travel table is the processed pair of rows i and i+1. -/
lemma zipWith_process_getD (as bs : List GeoEvent) (i : Nat)
    (ha : i < as.length) (hb : i < bs.length) :
    (List.zipWith process_pair as bs).getD i defaultPair
      = process_pair (as.getD i ⟨0, 0, 0⟩) (bs.getD i ⟨0, 0, 0⟩) := by
  induction as generalizing bs i with
  | nil => simp at ha
  | cons a as ih =>
      cases bs with
      | nil => simp at hb
      | cons b bs =>
          cases i with
          | zero => rfl
          | succ n =>
              simp only [List.zipWith_cons_cons, List.getD_cons_succ]
              exact ih bs n (by simpa using ha) (by simpa using hb)

lemma detect_travel_getD (events : List GeoEvent) (i : Nat)
    (hi : i + 1 < events.length) :
    (detect_impossible_travel_user events).getD (i + 1) defaultPair
      = process_pair (events.getD i ⟨0, 0, 0⟩) (events.getD (i + 1) ⟨0, 0, 0⟩) := by
  cases events with
  | nil => simp at hi
  | cons e rest =>
      have hlen : rest.length + 1 = (e :: rest).length := by simp
      unfold detect_impossible_travel_user
      rw [List.getD_cons_succ]
      exact zipWith_process_getD (e :: rest) rest i
        (by omega) (by simp at hi; omega)

lemma process_pair_flag_iff (prev curr : GeoEvent)
    (hne : ¬(prev.latitude = curr.latitude ∧ prev.longitude = curr.longitude))
    (hpos : 0 < curr.timestamp - prev.timestamp) :
    ((process_pair prev curr).impossible_travel = true
      ↔ calculate_distance prev.latitude prev.longitude curr.latitude curr.longitude
          / (curr.timestamp - prev.timestamp) > max_speed_kmh) := by
  simp only [process_pair, if_neg hne, if_neg (not_le.mpr hpos)]
  by_cases hs : calculate_distance prev.latitude prev.longitude curr.latitude curr.longitude
      / (curr.timestamp - prev.timestamp) > max_speed_kmh
  · simp [hs]
  · simp [hs, defaultPair]

lemma process_pair_skip (prev curr : GeoEvent)
    (h : curr.timestamp - prev.timestamp ≤ 0) :
    (process_pair prev curr).impossible_travel = false := by
  by_cases hc : prev.latitude = curr.latitude ∧ prev.longitude = curr.longitude
  · simp [process_pair, hc, defaultPair]
  · simp [process_pair, hc, h, defaultPair]

/-- C4. For every user and every pair of temporally-consecutive
logins (events sorted ascending by timestamp; row i and row i+1), if the
coordinates differ and the elapsed time is strictly positive, the row is
flagged `impossible_travel` exactly when the required speed
distance/time strictly exceeds 1000 km/h; and a pair whose elapsed time
is ≤ 0 is skipped and never flagged. -/
theorem C4_impossible_travel_iff_speed (events : List GeoEvent) (i : Nat)
    (hi : i + 1 < events.length) :
    (¬((events.getD i ⟨0, 0, 0⟩).latitude = (events.getD (i + 1) ⟨0, 0, 0⟩).latitude
        ∧ (events.getD i ⟨0, 0, 0⟩).longitude = (events.getD (i + 1) ⟨0, 0, 0⟩).longitude) →
      0 < (events.getD (i + 1) ⟨0, 0, 0⟩).timestamp - (events.getD i ⟨0, 0, 0⟩).timestamp →
      (((detect_impossible_travel_user events).getD (i + 1) defaultPair).impossible_travel = true
        ↔ calculate_distance
            (events.getD i ⟨0, 0, 0⟩).latitude (events.getD i ⟨0, 0, 0⟩).longitude
            (events.getD (i + 1) ⟨0, 0, 0⟩).latitude (events.getD (i + 1) ⟨0, 0, 0⟩).longitude
          / ((events.getD (i + 1) ⟨0, 0, 0⟩).timestamp - (events.getD i ⟨0, 0, 0⟩).timestamp)
          > max_speed_kmh))
    ∧ ((events.getD (i + 1) ⟨0, 0, 0⟩).timestamp - (events.getD i ⟨0, 0, 0⟩).timestamp ≤ 0 →
        ((detect_impossible_travel_user events).getD (i + 1) defaultPair).impossible_travel
          = false) := by
  rw [detect_travel_getD events i hi]
  exact ⟨fun hne hpos => process_pair_flag_iff _ _ hne hpos,
         fun h => process_pair_skip _ _ h⟩

/-- Witness for C4: two logins of one user, one hour apart, at (0°,0°)
and (0°,180°) — antipodal points 6371·π ≈ 20015 km apart, required speed
far above 1000 km/h — are flagged as impossible travel. -/
theorem C4_impossible_travel_iff_speed_witness :
    ((detect_impossible_travel_user
        [⟨0, 0, 0⟩, ⟨1, 0, 180⟩]).getD 1 defaultPair).impossible_travel = true := by
  have hiff := (C4_impossible_travel_iff_speed [⟨0, 0, 0⟩, ⟨1, 0, 180⟩] 0 (by norm_num)).1
    (by show ¬((0:ℝ) = 0 ∧ (0:ℝ) = 180); norm_num)
    (by show (0:ℝ) < 1 - 0; norm_num)
  apply hiff.mpr
  show calculate_distance 0 0 0 180 / ((1:ℝ) - 0) > max_speed_kmh
  rw [show ((1:ℝ) - 0) = 1 by norm_num, div_one]
  unfold calculate_distance radians earth_radius_km max_speed_kmh
  norm_num
  rw [show (180 : ℝ) * (Real.pi / 180) / 2 = Real.pi / 2 by ring]
  rw [Real.sin_pi_div_two]
  norm_num [Real.arcsin_one]
  nlinarith [Real.pi_gt_three]

/-- C6. The location lookup never propagates a failure to the
caller: the Unknown sentinel has country 'Unknown', coordinates 0.0 and
false flags; a private IP on a cache miss yields that sentinel, caches
it, and never consults the network outcome (the result is identical for
every outcome); and any exception, non-200 status, or non-`success` body
on a cache miss also yields and caches the sentinel. -/
theorem C6_lookup_absorbs_failures (cache : List (String × Location)) (ip : String)
    (o o2 : LookupOutcome) :
    ((default_location ip).country = "Unknown"
      ∧ (default_location ip).latitude = 0 ∧ (default_location ip).longitude = 0
      ∧ (default_location ip).is_proxy = false ∧ (default_location ip).is_vpn = false)
    ∧ (is_private_ip ip = true → cache.lookup ip = none →
        get_ip_location cache ip o
          = (default_location ip, (ip, default_location ip) :: cache)
        ∧ get_ip_location cache ip o = get_ip_location cache ip o2)
    ∧ (is_failure_outcome o = true → cache.lookup ip = none →
        get_ip_location cache ip o
          = (default_location ip, (ip, default_location ip) :: cache)) := by
  have hdef : ∀ o' : LookupOutcome, is_private_ip ip = true → cache.lookup ip = none →
      get_ip_location cache ip o'
        = (default_location ip, (ip, default_location ip) :: cache) := by
    intro o' hp hc
    unfold get_ip_location
    rw [hc]
    simp [hp]
  refine ⟨⟨rfl, by norm_num [default_location], by norm_num [default_location], rfl, rfl⟩,
    fun hp hc => ⟨hdef o hp hc, ?_⟩, fun hf hc => ?_⟩
  · rw [hdef o hp hc, hdef o2 hp hc]
  · by_cases hp : is_private_ip ip = true
    · exact hdef o hp hc
    · unfold get_ip_location
      rw [hc]
      simp only [Option.isNone_none]
      rcases o with _ | ⟨sc, data⟩
      · simp [hp]
      · simp only [is_failure_outcome] at hf
        by_cases hsc : sc = 200
        · subst hsc
          rw [if_pos rfl] at hf
          have hst : ¬(data.status = "success") := by
            intro h
            rw [if_pos h] at hf
            exact Bool.false_ne_true hf
          simp [hp, hst]
        · simp [hp, hsc]

/-- Witness for C6: the spec's private examples 192.168.1.1, 10.0.0.5
and 127.0.0.1 are short-circuited (for 192.168.1.1, even a would-be
successful response leaves the result identical to an exception outcome
and equal to the cached sentinel), and a failed lookup of the public
8.8.8.8 yields the cached sentinel. -/
theorem C6_lookup_absorbs_failures_witness :
    is_private_ip "192.168.1.1" = true
    ∧ is_private_ip "10.0.0.5" = true
    ∧ is_private_ip "127.0.0.1" = true
    ∧ (get_ip_location [] "192.168.1.1"
          (.response 200 ⟨"success", some "Germany", none, none, none,
            none, none, none, none, none⟩)
        = (default_location "192.168.1.1",
            [("192.168.1.1", default_location "192.168.1.1")])
       ∧ get_ip_location [] "192.168.1.1"
          (.response 200 ⟨"success", some "Germany", none, none, none,
            none, none, none, none, none⟩)
        = get_ip_location [] "192.168.1.1" .exn)
    ∧ get_ip_location [] "8.8.8.8" .exn
        = (default_location "8.8.8.8", [("8.8.8.8", default_location "8.8.8.8")]) :=
  ⟨by decide, by decide, by decide,
   (C6_lookup_absorbs_failures [] "192.168.1.1"
      (.response 200 ⟨"success", some "Germany", none, none, none,
        none, none, none, none, none⟩) .exn).2.1 (by decide) rfl,
   (C6_lookup_absorbs_failures [] "8.8.8.8" .exn .exn).2.2 (by decide) rfl⟩

/-- C8 counterexample. The claim says no core operation — validation
included — mutates the caller's dataframe in place.  But
`validate_data` executes `df['timestamp'] = pd.to_datetime(df['timestamp'])`
on the caller's frame: after validating a one-row frame whose timestamp
is the raw string "2024-01-01 10:00:00", the caller's timestamp column
holds the parsed datetime, not the original string. -/
theorem C8_validate_mutates_caller_frame :
    (validate_data sampleParse
        [⟨TimeVal.raw "2024-01-01 10:00:00", "alice", "8.8.8.8", some "Chrome"⟩]).2
      ≠ [⟨TimeVal.raw "2024-01-01 10:00:00", "alice", "8.8.8.8", some "Chrome"⟩] := by
  decide

/-- C8 amended. `clean_data` and `extract_features` operate on
copies and never mutate the caller's dataframe; `validate_data`,
however, overwrites the caller's timestamp column in place whenever the
timestamp conversion succeeds, and leaves the frame unchanged only when
`pd.to_datetime` raises. -/
theorem C8_only_validate_mutates :
    (∀ (parse : String → Option PyDatetime) (df : List RawRow),
      (clean_data parse df).2 = df)
    ∧ (∀ df : List CleanRow, (extract_features df).2 = df)
    ∧ (∀ (parse : String → Option PyDatetime) (df : List RawRow),
        df.mapM (fun r => to_datetime parse r.timestamp) = none →
        (validate_data parse df).2 = df) := by
  refine ⟨fun parse df => ?_, fun df => rfl, fun parse df h => ?_⟩
  · unfold clean_data
    cases hc : df.mapM (fun r =>
        (to_datetime parse r.timestamp).map (fun t =>
          CleanRow.mk t r.user_id r.ip_address r.user_agent)) <;>
      simp [hc]
  · unfold validate_data
    rw [h]

/-- Witness for C8 (amended): on a frame whose raw timestamp "garbage"
fails to parse, cleaning returns the caller's frame unchanged and so
does validation (the conversion raised before assigning). -/
theorem C8_only_validate_mutates_witness :
    ([⟨TimeVal.raw "garbage", "bob", "8.8.8.8", none⟩] : List RawRow).mapM
        (fun r => to_datetime sampleParse r.timestamp) = none
    ∧ (clean_data sampleParse [⟨TimeVal.raw "garbage", "bob", "8.8.8.8", none⟩]).2
        = [⟨TimeVal.raw "garbage", "bob", "8.8.8.8", none⟩]
    ∧ (validate_data sampleParse [⟨TimeVal.raw "garbage", "bob", "8.8.8.8", none⟩]).2
        = [⟨TimeVal.raw "garbage", "bob", "8.8.8.8", none⟩] :=
  ⟨by decide,
   C8_only_validate_mutates.1 sampleParse _,
   C8_only_validate_mutates.2.2 sampleParse _ (by decide)⟩

/-- Membership in the `dropDup` fold: an element is in the accumulated
list iff it is in the accumulator or in the remaining input. -/
lemma mem_dropDup_foldl {α : Type} [DecidableEq α] (l : List α) (acc : List α) (y : α) :
    (y ∈ l.foldl (fun acc x => if x ∈ acc then acc else acc ++ [x]) acc)
      ↔ y ∈ acc ∨ y ∈ l := by
  induction l generalizing acc with
  | nil => simp
  | cons x xs ih =>
      rw [List.foldl_cons, ih]
      by_cases hx : x ∈ acc
      · rw [if_pos hx]
        constructor
        · rintro (h | h)
          · exact Or.inl h
          · exact Or.inr (List.mem_cons_of_mem _ h)
        · rintro (h | h)
          · exact Or.inl h
          · rcases List.mem_cons.mp h with rfl | h2
            · exact Or.inl hx
            · exact Or.inr h2
      · rw [if_neg hx]
        simp only [List.mem_append, List.mem_cons, List.mem_singleton]
        tauto

/-- The `dropDup` fold preserves duplicate-freedom. -/
lemma nodup_dropDup_foldl {α : Type} [DecidableEq α] (l : List α) (acc : List α)
    (h : acc.Nodup) :
    (l.foldl (fun acc x => if x ∈ acc then acc else acc ++ [x]) acc).Nodup := by
  induction l generalizing acc with
  | nil => exact h
  | cons x xs ih =>
      rw [List.foldl_cons]
      by_cases hx : x ∈ acc
      · rw [if_pos hx]
        exact ih acc h
      · rw [if_neg hx]
        exact ih _ (by simp [List.nodup_append, h, hx])

lemma dropDup_toFinset {α : Type} [DecidableEq α] (l : List α) :
    (dropDup l).toFinset = l.toFinset := by
  ext y
  simp [dropDup, mem_dropDup_foldl, List.mem_toFinset]

/-- The `nunique` semantics: the number of first occurrences equals the
cardinality of the set of values. -/
lemma dropDup_length_eq_card {α : Type} [DecidableEq α] (l : List α) :
    (dropDup l).length = l.toFinset.card := by
  have hnd : (dropDup l).Nodup := nodup_dropDup_foldl l [] (by simp)
  rw [← dropDup_toFinset l, List.toFinset_card_of_nodup hnd]

/-- C9. The anomaly summary reports `anomalies_detected` as the
count of records with risk_score ≥ 0.5, `high_risk_users` as the number
of distinct user_ids having a record with risk_score ≥ 0.7, alongside
`total_records`, per-level `risk_level_counts`, and (on non-empty input)
`avg_risk_score` as the mean risk score. -/
theorem C9_anomaly_summary_fields (results : List ScoredRec) :
    (get_anomaly_summary results).total_records = results.length
    ∧ (get_anomaly_summary results).anomalies_detected
        = results.countP (fun r => 0.5 ≤ r.risk_score)
    ∧ (get_anomaly_summary results).high_risk_users
        = ((results.filter (fun r => 0.7 ≤ r.risk_score)).map
            (fun r => r.user_id)).toFinset.card
    ∧ (∀ l : String, (get_anomaly_summary results).risk_level_counts l
        = results.countP (fun r => r.risk_level == l))
    ∧ (results ≠ [] → (get_anomaly_summary results).avg_risk_score
        = (results.map (fun r => r.risk_score)).sum / (results.length : ℚ)) := by
  refine ⟨rfl, (List.countP_eq_length_filter _ _).symm,
    dropDup_length_eq_card _, fun l => ?_, fun _ => rfl⟩
  simp [get_anomaly_summary, List.count, List.countP_map]
  rfl

/-- Witness for C9: the mean conjunct applied to a concrete two-record
table. -/
theorem C9_anomaly_summary_fields_witness :
    ([⟨"u1", 0.9, "Critical"⟩, ⟨"u2", 0.3, "Low"⟩] : List ScoredRec) ≠ []
    ∧ (get_anomaly_summary [⟨"u1", 0.9, "Critical"⟩, ⟨"u2", 0.3, "Low"⟩]).avg_risk_score
        = (([⟨"u1", 0.9, "Critical"⟩, ⟨"u2", 0.3, "Low"⟩] : List ScoredRec).map
            (fun r => r.risk_score)).sum
          / (([⟨"u1", 0.9, "Critical"⟩, ⟨"u2", 0.3, "Low"⟩] : List ScoredRec).length : ℚ) :=
  ⟨by simp,
   (C9_anomaly_summary_fields [⟨"u1", 0.9, "Critical"⟩, ⟨"u2", 0.3, "Low"⟩]).2.2.2.2
     (by simp)⟩

end SkyTrace
